import Mathlib

/-! Verification of the facility-safety dashboard prototypes.

The Python sources are shallowly embedded in Lean: dictionaries become
association lists or pattern-matching functions, pandas DataFrames become
lists of rows, floats become rationals, random draws and transcendental
samples (np.random.normal, np.sin, math.exp) become explicit function
parameters constrained only by properties those samples always satisfy,
and the hosted chat-completion client becomes an oracle parameter that
either returns a string or raises. -/

namespace FacilityApp

/-! ## Thresholds and the status evaluator (utils/facility.py) -/

/-- Per-gas threshold record: one value of the THRESHOLDS dict in utils/facility.py
(keys mode, warn, alarm, units). -/
structure Thr where
  mode : String
  warn : ℚ
  alarm : ℚ
  units : String
deriving DecidableEq

/-- THRESHOLDS table (utils/facility.py lines 80-86), in dict insertion order. -/
def THRESHOLDS : List (String × Thr) :=
  [("O₂", ⟨"low", 19.5, 18.0, "%"⟩),
   ("CO", ⟨"high", 35.0, 50.0, "ppm"⟩),
   ("H₂S", ⟨"high", 10.0, 15.0, "ppm"⟩),
   ("NH₃", ⟨"high", 25.0, 35.0, "ppm"⟩),
   ("Ethanol", ⟨"high", 300.0, 500.0, "ppm"⟩)]

/-- THRESHOLDS.get(label): the entry stored under the given label, if any. -/
def thresholdsGet (label : String) : Option Thr :=
  (THRESHOLDS.find? (fun p => p.1 == label)).map (fun p => p.2)

/-- Floor of a nonnegative rational (num/den with nonnegative numerator,
so integer division toward zero agrees with the floor). -/
def ratFloorNonneg (q : ℚ) : ℤ :=
  q.num / (q.den : ℤ)

/-- Two-decimal rendering of a rational, standing in for the Python format
spec ".2f" applied to the corresponding float (ties here round up rather than
to even; only human-readable message text depends on this helper). -/
def fmt2 (v : ℚ) : String :=
  let a : ℚ := |v|
  let cents : ℤ := ratFloorNonneg (a * 100 + 1 / 2)
  let ip := cents / 100
  let fr := cents % 100
  (if v < 0 then "-" else "")
    ++ toString ip ++ "." ++ (if fr < 10 then "0" else "") ++ toString fr

/-- Python str() of a float, modeled for the at-most-one-decimal rationals
that appear in the threshold table (19.5 renders as 19.5, 35 as 35.0). -/
def pyFloat (q : ℚ) : String :=
  if q.den = 1 then toString q.num ++ ".0"
  else
    let a : ℚ := |q|
    let ip : ℤ := ratFloorNonneg a
    let tenths : ℤ := ratFloorNonneg ((a - ip) * 10)
    (if q < 0 then "-" else "") ++ toString ip ++ "." ++ toString tenths

/-- _status_for (utils/facility.py lines 418-433): status label and message for
the latest reading of a gas. -/
def _status_for (label : String) (value : ℚ) : String × String :=
  match thresholdsGet label with
  | none => ("OK", "Monitoring normal conditions.")
  | some thr =>
    if thr.mode = "low" then
      if value ≤ thr.alarm then
        ("ALARM", label ++ " critically low (" ++ fmt2 value ++ thr.units
          ++ "). Evacuate, ventilate, isolate.")
      else if value ≤ thr.warn then
        ("WARN", label ++ " trending low (" ++ fmt2 value ++ thr.units
          ++ "). Investigate consumption/airflow.")
      else
        ("OK", label ++ " normal (" ++ fmt2 value ++ thr.units ++ ").")
    else
      if value ≥ thr.alarm then
        ("ALARM", label ++ " high (" ++ fmt2 value ++ thr.units
          ++ "). Close shutters, isolate source, evacuate.")
      else if value ≥ thr.warn then
        ("WARN", label ++ " elevated (" ++ fmt2 value ++ thr.units
          ++ "). Increase extraction, check for leaks.")
      else
        ("OK", label ++ " normal (" ++ fmt2 value ++ thr.units ++ ").")

theorem thresholdsGet_O2 : thresholdsGet "O₂" = some ⟨"low", 19.5, 18.0, "%"⟩ := rfl

theorem thresholdsGet_CO : thresholdsGet "CO" = some ⟨"high", 35.0, 50.0, "ppm"⟩ := rfl

/-- Unfolding of _status_for in "low" mode: the status component follows the
low-is-bad comparison chain of the source. -/
theorem statusFor_low_spec (label : String) (thr : Thr) (value : ℚ)
    (hfind : thresholdsGet label = some thr) (hm : thr.mode = "low") :
    ((_status_for label value).1 = "ALARM" ↔ value ≤ thr.alarm) ∧
    ((_status_for label value).1 = "WARN" ↔ thr.alarm < value ∧ value ≤ thr.warn) ∧
    ((_status_for label value).1 = "OK" ↔
      ¬ value ≤ thr.alarm ∧ ¬(thr.alarm < value ∧ value ≤ thr.warn)) := by
  unfold _status_for
  rw [hfind]
  dsimp only
  rw [if_pos hm]
  split_ifs with h1 h2
  · refine ⟨by simp [h1], ?_, ?_⟩
    · simp only [show ("ALARM":String) ≠ "WARN" from by decide, false_iff]
      rintro ⟨ha, -⟩
      linarith
    · simp only [show ("ALARM":String) ≠ "OK" from by decide, false_iff]
      rintro ⟨ha, -⟩
      exact ha h1
  · refine ⟨?_, by simp [lt_of_not_le h1, h2], ?_⟩
    · simp only [show ("WARN":String) ≠ "ALARM" from by decide, false_iff]
      exact h1
    · simp only [show ("WARN":String) ≠ "OK" from by decide, false_iff]
      rintro ⟨-, hb⟩
      exact hb ⟨lt_of_not_le h1, h2⟩
  · refine ⟨?_, ?_, ⟨fun _ => ⟨h1, fun hc => h2 hc.2⟩, fun _ => rfl⟩⟩
    · simp only [show ("OK":String) ≠ "ALARM" from by decide, false_iff]
      exact h1
    · simp only [show ("OK":String) ≠ "WARN" from by decide, false_iff]
      rintro ⟨-, hb⟩
      exact h2 hb

/-- Unfolding of _status_for in "high" mode: the status component follows the
high-is-bad comparison chain of the source. -/
theorem statusFor_high_spec (label : String) (thr : Thr) (value : ℚ)
    (hfind : thresholdsGet label = some thr) (hm : thr.mode = "high") :
    ((_status_for label value).1 = "ALARM" ↔ thr.alarm ≤ value) ∧
    ((_status_for label value).1 = "WARN" ↔ thr.warn ≤ value ∧ value < thr.alarm) ∧
    ((_status_for label value).1 = "OK" ↔
      ¬ thr.alarm ≤ value ∧ ¬(thr.warn ≤ value ∧ value < thr.alarm)) := by
  have hne : ¬ thr.mode = "low" := by
    rw [hm]
    decide
  unfold _status_for
  rw [hfind]
  dsimp only
  rw [if_neg hne]
  split_ifs with h1 h2
  · refine ⟨by simp [h1], ?_, ?_⟩
    · simp only [show ("ALARM":String) ≠ "WARN" from by decide, false_iff]
      rintro ⟨-, hb⟩
      exact absurd h1 (not_le.mpr hb)
    · simp only [show ("ALARM":String) ≠ "OK" from by decide, false_iff]
      rintro ⟨ha, -⟩
      exact ha h1
  · refine ⟨?_, by simp [h2, lt_of_not_le h1], ?_⟩
    · simp only [show ("WARN":String) ≠ "ALARM" from by decide, false_iff]
      exact h1
    · simp only [show ("WARN":String) ≠ "OK" from by decide, false_iff]
      rintro ⟨-, hb⟩
      exact hb ⟨h2, lt_of_not_le h1⟩
  · refine ⟨?_, ?_, ⟨fun _ => ⟨h1, fun hc => h2 hc.1⟩, fun _ => rfl⟩⟩
    · simp only [show ("OK":String) ≠ "ALARM" from by decide, false_iff]
      exact h1
    · simp only [show ("OK":String) ≠ "WARN" from by decide, false_iff]
      rintro ⟨ha, -⟩
      exact h2 ha

/-- C1: for every gas label in the static THRESHOLDS table with mode "high" and
every value, _status_for returns ALARM iff value ≥ alarm, WARN iff
warn ≤ value < alarm, and OK otherwise; for every label with mode "low" it
returns ALARM iff value ≤ alarm, WARN iff alarm < value ≤ warn, and OK
otherwise. -/
theorem claim_C1_status_for_thresholds :
    ∀ (label : String) (thr : Thr) (value : ℚ), (label, thr) ∈ THRESHOLDS →
    (thr.mode = "high" →
      ((_status_for label value).1 = "ALARM" ↔ thr.alarm ≤ value) ∧
      ((_status_for label value).1 = "WARN" ↔ thr.warn ≤ value ∧ value < thr.alarm) ∧
      ((_status_for label value).1 = "OK" ↔
        ¬ thr.alarm ≤ value ∧ ¬(thr.warn ≤ value ∧ value < thr.alarm))) ∧
    (thr.mode = "low" →
      ((_status_for label value).1 = "ALARM" ↔ value ≤ thr.alarm) ∧
      ((_status_for label value).1 = "WARN" ↔ thr.alarm < value ∧ value ≤ thr.warn) ∧
      ((_status_for label value).1 = "OK" ↔
        ¬ value ≤ thr.alarm ∧ ¬(thr.alarm < value ∧ value ≤ thr.warn))) := by
  intro label thr value hmem
  simp only [THRESHOLDS, List.mem_cons, List.not_mem_nil, or_false, Prod.mk.injEq] at hmem
  rcases hmem with ⟨rfl, rfl⟩ | ⟨rfl, rfl⟩ | ⟨rfl, rfl⟩ | ⟨rfl, rfl⟩ | ⟨rfl, rfl⟩
  · exact ⟨fun hm => absurd hm (by decide),
      fun _ => statusFor_low_spec _ _ value rfl rfl⟩
  · exact ⟨fun _ => statusFor_high_spec _ _ value rfl rfl,
      fun hm => absurd hm (by decide)⟩
  · exact ⟨fun _ => statusFor_high_spec _ _ value rfl rfl,
      fun hm => absurd hm (by decide)⟩
  · exact ⟨fun _ => statusFor_high_spec _ _ value rfl rfl,
      fun hm => absurd hm (by decide)⟩
  · exact ⟨fun _ => statusFor_high_spec _ _ value rfl rfl,
      fun hm => absurd hm (by decide)⟩

/-- C1 witness: the theorem instantiated at the CO row of THRESHOLDS and
value 42, with the membership and mode hypotheses discharged concretely. -/
theorem claim_C1_status_for_thresholds_witness :
    (_status_for "CO" 42).1 = "WARN" ↔ (35.0 : ℚ) ≤ 42 ∧ (42 : ℚ) < 50.0 := by
  have h := claim_C1_status_for_thresholds "CO" ⟨"high", 35.0, 50.0, "ppm"⟩ 42
    (by simp [THRESHOLDS])
  exact (h.1 rfl).2.1

/-- C6: with the static thresholds table (CO: high, warn 35, alarm 50; O₂: low,
warn 19.5, alarm 18), the latest value 42.0 for CO gets status WARN and the
latest value 17.5 for O₂ gets status ALARM. -/
theorem claim_C6_scenario_statuses :
    thresholdsGet "CO" = some ⟨"high", 35.0, 50.0, "ppm"⟩ ∧
    thresholdsGet "O₂" = some ⟨"low", 19.5, 18.0, "%"⟩ ∧
    (_status_for "CO" 42).1 = "WARN" ∧
    (_status_for "O₂" 17.5).1 = "ALARM" := by
  refine ⟨rfl, rfl, ?_, ?_⟩
  · exact ((statusFor_high_spec "CO" ⟨"high", 35.0, 50.0, "ppm"⟩ 42 rfl rfl).2.1).mpr
      (by norm_num)
  · exact ((statusFor_low_spec "O₂" ⟨"low", 19.5, 18.0, "%"⟩ 17.5 rfl rfl).1).mpr
      (by norm_num)

/-! ## Session history store (utils/history.py) -/

/-- One row of a history DataFrame: a timestamp (epoch seconds; pandas
Timestamps are order-isomorphic to their epoch values, and fetch_series
converts its integer bounds to Timestamps before comparing) and a reading. -/
structure Point where
  t : ℤ
  value : ℚ
deriving DecidableEq

/-- st.session_state.get("hist", {}) viewed as a partial map from (room, label)
to a stored series; none models both an absent "hist" dict and a missing key. -/
abbrev HistStore : Type := String × String → Option (List Point)

/-- _key (utils/history.py lines 15-16). -/
def _key (room label : String) : String × String := (room, label)

/-- fetch_series (utils/history.py lines 58-65): slice the stored series to the
rows with start_ts ≤ t ≤ end_ts, preserving the stored row order. -/
def fetch_series (hist : HistStore) (room label : String) (start_ts end_ts : ℤ) :
    List Point :=
  match hist (_key room label) with
  | none => []
  | some df =>
    if df.isEmpty then []
    else df.filter (fun q => decide (start_ts ≤ q.t) && decide (q.t ≤ end_ts))

/-- latest_value (utils/history.py lines 67-71): the value of the last stored
row, if any. -/
def latest_value (hist : HistStore) (room label : String) : Option ℚ :=
  match hist (_key room label) with
  | none => none
  | some df => if h : df = [] then none else some ((df.getLast h).value)

/-- C4: fetch_series returns exactly the stored points whose timestamp lies in
[t0, t1]; output order is non-decreasing whenever the stored series is time
sorted (as the generator produces it); and an identical second call on the
same store returns the same result. -/
theorem claim_C4_fetch_series_slice :
    ∀ (hist : HistStore) (room label : String) (t0 t1 : ℤ) (df : List Point),
    hist (_key room label) = some df →
    ((∀ p : Point, p ∈ fetch_series hist room label t0 t1 ↔
        p ∈ df ∧ t0 ≤ p.t ∧ p.t ≤ t1) ∧
     (List.Pairwise (fun a b : Point => a.t ≤ b.t) df →
        List.Pairwise (fun a b : Point => a.t ≤ b.t)
          (fetch_series hist room label t0 t1)) ∧
     fetch_series hist room label t0 t1 = fetch_series hist room label t0 t1) := by
  intro hist room label t0 t1 df h
  have hf : fetch_series hist room label t0 t1
      = if df.isEmpty then []
        else df.filter (fun q => decide (t0 ≤ q.t) && decide (q.t ≤ t1)) := by
    unfold fetch_series
    rw [h]
  by_cases hE : df.isEmpty
  · have hdf : df = [] := by
      cases df
      · rfl
      · simp [List.isEmpty] at hE
    subst hdf
    rw [hf]
    simp
  · rw [hf, if_neg hE]
    refine ⟨?_, ?_, rfl⟩
    · intro p
      simp [List.mem_filter, and_assoc]
    · intro hp
      exact List.Pairwise.sublist (List.filter_sublist df) hp

/-- Concrete three-row store under the key (Room 2, CO). -/
def histW : HistStore :=
  fun k => if k = ("Room 2", "CO") then some [⟨0, 1⟩, ⟨10, 2⟩, ⟨20, 3⟩] else none

/-- C4 witness: the slice [0, 10] of a concrete three-row store, with the
store-lookup and sortedness hypotheses discharged concretely. -/
theorem claim_C4_fetch_series_slice_witness :
    ((⟨10, (2:ℚ)⟩ : Point) ∈ fetch_series histW "Room 2" "CO" 0 10 ↔
      (⟨10, (2:ℚ)⟩ : Point) ∈ [(⟨0, 1⟩ : Point), ⟨10, 2⟩, ⟨20, 3⟩] ∧
        (0:ℤ) ≤ 10 ∧ (10:ℤ) ≤ 10) ∧
    List.Pairwise (fun a b : Point => a.t ≤ b.t)
      (fetch_series histW "Room 2" "CO" 0 10) := by
  have h := claim_C4_fetch_series_slice histW "Room 2" "CO" 0 10
    [⟨0, 1⟩, ⟨10, 2⟩, ⟨20, 3⟩] rfl
  exact ⟨h.1 ⟨10, 2⟩, h.2.1 (by decide)⟩

/-- C9: a missing history entry, or an empty stored series, makes fetch_series
return the empty DataFrame and latest_value return none, with no exception
(both functions are total). -/
theorem claim_C9_missing_history_defaults :
    ∀ (hist : HistStore) (room label : String) (t0 t1 : ℤ),
    (hist (_key room label) = none ∨ hist (_key room label) = some []) →
    fetch_series hist room label t0 t1 = [] ∧ latest_value hist room label = none := by
  intro hist room label t0 t1 h
  rcases h with h | h
  · constructor
    · unfold fetch_series
      rw [h]
    · unfold latest_value
      rw [h]
  · constructor
    · unfold fetch_series
      rw [h]
      rfl
    · unfold latest_value
      rw [h]
      rfl

/-- The history store of a fresh session, before init_if_needed ran. -/
def histEmpty : HistStore := fun _ => none

/-- C9 witness: the theorem applied to the fresh store, with the
missing-entry hypothesis discharged as its left disjunct. -/
theorem claim_C9_missing_history_defaults_witness :
    fetch_series histEmpty "Room 1" "NH₃" 0 1000 = [] ∧
    latest_value histEmpty "Room 1" "NH₃" = none :=
  claim_C9_missing_history_defaults histEmpty "Room 1" "NH₃" 0 1000 (Or.inl rfl)

/-! ## Synthetic history generator (utils/history.py, init_if_needed) -/

/-- DEFAULT_BASE dict (utils/history.py line 12), as a partial map. -/
def DEFAULT_BASE_find (label : String) : Option ℚ :=
  match label with
  | "NH₃" => some 20.0
  | "CO" => some 12.0
  | "O₂" => some 20.8
  | "H₂S" => some 1.5
  | "Ethanol" => some 260.0
  | _ => none

/-- Per-gas spike height (utils/history.py lines 46-48): dict lookup with
default 10. -/
def spike_height (label : String) : ℚ :=
  match label with
  | "NH₃" => 15
  | "CO" => 25
  | "O₂" => -3.0
  | "H₂S" => 8
  | "Ethanol" => 180
  | _ => 10

/-- Contribution of the spike centered at c to sample i: init_if_needed adds
height * exp(-(k*k)/(2*(width/2.2)^2)) at index c + k for k in [-width, width]
with width = 6; gauss stands for the sampled exponential, so gauss 0 = 1 and
0 < gauss k ≤ 1 always. (The 0 ≤ c + k < n array-bounds guard is left to the
caller, which only reads indices inside the array.) -/
def bump_contrib (height : ℚ) (gauss : ℤ → ℚ) (c i : ℕ) : ℚ :=
  if (c:ℤ) - 6 ≤ (i:ℤ) ∧ (i:ℤ) ≤ (c:ℤ) + 6 then height * gauss ((i:ℤ) - (c:ℤ)) else 0

/-- Sample i of one generated series (the body of the init_if_needed loop,
utils/history.py lines 29-56): base + 0.5 * sine wave + Gaussian noise, plus
the Gaussian bumps of all injected spikes. sinSample i and noise i stand for
the np.sin sample and the np.random.normal draw at index i; centers are the
randomly chosen spike centers. No clamping of any kind is applied. -/
def init_series_value (label : String) (sinSample noise : ℕ → ℚ) (gauss : ℤ → ℚ)
    (centers : List ℕ) (i : ℕ) : ℚ :=
  (DEFAULT_BASE_find label).getD 10.0 + 0.5 * sinSample i + noise i
    + (centers.map (fun c => bump_contrib (spike_height label) gauss c i)).sum

/-- C2 counterexample: with a flat sine sample, a noise draw of +4 (the
Gaussian noise of the generator is unbounded, so this draw is possible) and
one spike far from sample 0, the generated O₂ value at sample 0 is 24.8,
outside the claimed 17-21 band: init_if_needed applies no clamp. -/
theorem claim_C2_o2_band_counterexample :
    init_series_value "O₂" (fun _ => 0) (fun _ => 4) (fun _ => 1) [100] 0 = 24.8 ∧
    ¬ (init_series_value "O₂" (fun _ => 0) (fun _ => 4) (fun _ => 1) [100] 0 ≤ 21) := by
  have hv : init_series_value "O₂" (fun _ => 0) (fun _ => 4) (fun _ => 1) [100] 0
      = 24.8 := by
    unfold init_series_value bump_contrib DEFAULT_BASE_find spike_height
    norm_num
  refine ⟨hv, ?_⟩
  rw [hv]
  norm_num

/-- Every O₂ spike bump only lowers the series, by at most 3 per spike. -/
theorem o2_bump_sum_bounds (gauss : ℤ → ℚ) (hg : ∀ k, 0 ≤ gauss k ∧ gauss k ≤ 1)
    (centers : List ℕ) (i : ℕ) :
    -3 * (centers.length : ℚ) ≤
      (centers.map (fun c => bump_contrib (-3.0) gauss c i)).sum ∧
    (centers.map (fun c => bump_contrib (-3.0) gauss c i)).sum ≤ 0 := by
  induction centers with
  | nil => simp
  | cons c cs ih =>
    have hb : -3 ≤ bump_contrib (-3.0) gauss c i ∧ bump_contrib (-3.0) gauss c i ≤ 0 := by
      unfold bump_contrib
      split_ifs with h
      · obtain ⟨h0, h1⟩ := hg ((i:ℤ) - (c:ℤ))
        constructor
        · nlinarith
        · nlinarith
      · norm_num
    simp only [List.map_cons, List.sum_cons, List.length_cons]
    push_cast
    constructor
    · linarith [ih.1, hb.1]
    · linarith [ih.2, hb.2]

/-- C2 amended: the generator clamps nothing, and a single unbounded noise draw
already leaves the 17-21 band (see the counterexample). What does hold: the
sinusoid contributes at most ±0.5 and every O₂ spike bump lies in [-3, 0], so
whenever every noise draw is bounded by ε, each O₂ sample stays within
[20.3 - ε - 3·(number of spikes), 21.3 + ε]. -/
theorem claim_C2_o2_series_bounds :
    ∀ (sinSample noise : ℕ → ℚ) (gauss : ℤ → ℚ) (centers : List ℕ) (i : ℕ) (ε : ℚ),
    (∀ j, |sinSample j| ≤ 1) → (∀ j, |noise j| ≤ ε) →
    (∀ k, 0 ≤ gauss k ∧ gauss k ≤ 1) →
    20.3 - ε - 3 * (centers.length : ℚ)
        ≤ init_series_value "O₂" sinSample noise gauss centers i ∧
    init_series_value "O₂" sinSample noise gauss centers i ≤ 21.3 + ε := by
  intro sinSample noise gauss centers i ε hs hn hg
  have hsum := o2_bump_sum_bounds gauss hg centers i
  have hs1 := abs_le.mp (hs i)
  have hn1 := abs_le.mp (hn i)
  unfold init_series_value
  have hsp : spike_height "O₂" = -3.0 := rfl
  have hba : (DEFAULT_BASE_find "O₂").getD 10.0 = 20.8 := rfl
  rw [hsp, hba]
  constructor
  · nlinarith [hsum.1, hs1.1, hn1.1]
  · nlinarith [hsum.2, hs1.2, hn1.2]

/-- C2 amended witness: flat sine, zero noise (ε = 0), unit bump samples and no
spikes give sample value 20.8 with bounds 20.3 ≤ 20.8 ≤ 21.3. -/
theorem claim_C2_o2_series_bounds_witness :
    20.3 - 0 - 3 * (([] : List ℕ).length : ℚ)
        ≤ init_series_value "O₂" (fun _ => 0) (fun _ => 0) (fun _ => 1) [] 0 ∧
    init_series_value "O₂" (fun _ => 0) (fun _ => 0) (fun _ => 1) [] 0 ≤ 21.3 + 0 :=
  claim_C2_o2_series_bounds (fun _ => 0) (fun _ => 0) (fun _ => 1) [] 0 0
    (fun _ => by norm_num) (fun _ => by norm_num) (fun _ => by norm_num)

/-! ## Runtime operator actions (utils/history.py, apply_runtime_ops) -/

/-- Operator-action dict read by apply_runtime_ops: close_shutter, ventilate
and reset are consulted; ack is set by the app but never read here. -/
structure Ops where
  close_shutter : Bool
  ventilate : Bool
  reset : Bool
  ack : Bool
deriving DecidableEq

/-- np.linspace(a, b, m) sampled at index j (0-based): a + (b-a)*j/(m-1) for
m ≥ 2, and the single sample a for m = 1. -/
def linspace (a b : ℚ) (m j : ℕ) : ℚ :=
  if m ≤ 1 then a else a + (b - a) * (j : ℚ) / ((m : ℚ) - 1)

/-- Per-gas growth magnitude of the simulated leak (utils/history.py line
128): dict lookup with default 8. -/
def leak_mag (label : String) : ℚ :=
  match label with
  | "NH₃" => 10
  | "CO" => 15
  | "O₂" => -1.5
  | "H₂S" => 6
  | "Ethanol" => 120
  | _ => 8

/-- Insertion of a value into a sorted list, for the median helper. -/
def insertSorted (x : ℚ) : List ℚ → List ℚ
  | [] => [x]
  | y :: ys => if x ≤ y then x :: y :: ys else y :: insertSorted x ys

/-- Insertion sort on rationals, for the median helper. -/
def sortQ : List ℚ → List ℚ
  | [] => []
  | x :: xs => insertSorted x (sortQ xs)

/-- pandas Series.median: the middle sorted value, or the mean of the two
middle values for an even count (0 stands for the NaN of an empty series;
apply_runtime_ops only takes the median of a non-empty tail). -/
def median (l : List ℚ) : ℚ :=
  let s := sortQ l
  let n := s.length
  if n = 0 then 0
  else if n % 2 = 1 then s.getD (n / 2) 0
  else (s.getD (n / 2 - 1) 0 + s.getD (n / 2) 0) / 2

/-- Simulated-leak stage: additive growth ramp over the tail values. -/
def stage_simulate (label : String) (flag : Bool) (vals : List ℚ) : List ℚ :=
  if flag then
    vals.enum.map (fun q => q.2 + leak_mag label * linspace 0 1 vals.length q.1)
  else vals

/-- close_shutter stage: multiplicative damping ramp 0.9 → 0.7. -/
def stage_close_shutter (flag : Bool) (vals : List ℚ) : List ℚ :=
  if flag then vals.enum.map (fun q => q.2 * linspace 0.9 0.7 vals.length q.1)
  else vals

/-- ventilate stage: pull readings toward the detector baseline with a
0 → 0.6 ramp; an unknown label falls back to the median of the tail. -/
def stage_ventilate (label : String) (flag : Bool) (vals : List ℚ) : List ℚ :=
  if flag then
    let base := (DEFAULT_BASE_find label).getD (median vals)
    vals.enum.map (fun q =>
      q.2 * (1 - 0.6 * linspace 0 1 vals.length q.1)
        + base * (0.6 * linspace 0 1 vals.length q.1))
  else vals

/-- reset stage: blend 20% of the reading with 80% of the baseline. -/
def stage_reset (label : String) (flag : Bool) (vals : List ℚ) : List ℚ :=
  if flag then
    let base := (DEFAULT_BASE_find label).getD (median vals)
    vals.map (fun v => v * 0.2 + base * 0.8)
  else vals

/-- The four value transformations of apply_runtime_ops, in source order. -/
def new_tail_vals (label : String) (simulate : Bool) (ops : Ops) (vals : List ℚ) :
    List ℚ :=
  stage_reset label ops.reset
    (stage_ventilate label ops.ventilate
      (stage_close_shutter ops.close_shutter
        (stage_simulate label simulate vals)))

/-- apply_runtime_ops (utils/history.py lines 111-147): copy the series,
recompute the values of the last (at most) 20 rows through the selected
stages, and write them back at the same row positions; the room argument is
accepted but unused, exactly as in the source. -/
def apply_runtime_ops (df : List Point) (room label : String) (simulate : Bool)
    (ops : Ops) : List Point :=
  if df.isEmpty then df
  else
    let k := df.length - 20
    let tl := df.drop k
    df.take k ++ List.zipWith (fun p v => ⟨p.t, v⟩) tl
      (new_tail_vals label simulate ops (tl.map Point.value))

theorem length_enum_map {α β : Type} (f : ℕ × α → β) (l : List α) :
    (l.enum.map f).length = l.length := by
  simp [List.length_map, List.enum_length]

theorem new_tail_vals_length (label : String) (simulate : Bool) (ops : Ops)
    (vals : List ℚ) :
    (new_tail_vals label simulate ops vals).length = vals.length := by
  unfold new_tail_vals stage_reset stage_ventilate stage_close_shutter stage_simulate
  split_ifs <;> simp [List.length_map, List.enum_length]

theorem zipWith_point_map_t (tl : List Point) (nv : List ℚ)
    (h : nv.length = tl.length) :
    (List.zipWith (fun p v => (⟨p.t, v⟩ : Point)) tl nv).map Point.t
      = tl.map Point.t := by
  induction tl generalizing nv with
  | nil => simp
  | cons p ps ih =>
    cases nv with
    | nil => simp at h
    | cons v vs =>
      simp only [List.zipWith_cons_cons, List.map_cons]
      rw [ih vs (by simpa using h)]

theorem get?_append_left {α : Type} :
    ∀ (l₁ l₂ : List α) (i : ℕ), i < l₁.length → (l₁ ++ l₂).get? i = l₁.get? i
  | [], _, i, h => by simp at h
  | _ :: _, _, 0, _ => rfl
  | _ :: l, l₂, (i+1), h =>
    get?_append_left l l₂ i (Nat.lt_of_succ_lt_succ h)

theorem get?_take_lt {α : Type} :
    ∀ (l : List α) (k i : ℕ), i < k → (l.take k).get? i = l.get? i
  | [], k, i, _ => by simp
  | _ :: _, 0, i, h => absurd h (Nat.not_lt_zero i)
  | _ :: _, (_+1), 0, _ => rfl
  | _ :: l, (k+1), (i+1), h =>
    get?_take_lt l k i (Nat.lt_of_succ_lt_succ h)

/-- C8: for every non-empty series and every combination of the simulate flag
and ops dict, apply_runtime_ops changes at most the value entries of the last
20 rows: every timestamp is unchanged and every row before the final 20 is
returned exactly as stored. -/
theorem claim_C8_runtime_ops_frame :
    ∀ (df : List Point) (room label : String) (simulate : Bool) (ops : Ops),
    df ≠ [] →
    (apply_runtime_ops df room label simulate ops).map Point.t = df.map Point.t ∧
    (∀ i, i < df.length - 20 →
      (apply_runtime_ops df room label simulate ops).get? i = df.get? i) := by
  intro df room label simulate ops hne
  have hE : df.isEmpty = false := by
    cases df
    · exact absurd rfl hne
    · rfl
  have hlen : (new_tail_vals label simulate ops
      ((df.drop (df.length - 20)).map Point.value)).length
      = (df.drop (df.length - 20)).length := by
    rw [new_tail_vals_length, List.length_map]
  unfold apply_runtime_ops
  rw [hE]
  simp only [Bool.false_eq_true, if_false]
  constructor
  · rw [List.map_append, zipWith_point_map_t _ _ hlen, ← List.map_append,
      List.take_append_drop]
  · intro i hi
    have htl : (df.take (df.length - 20)).length = df.length - 20 := by
      rw [List.length_take]
      exact min_eq_left (Nat.sub_le _ _)
    rw [get?_append_left _ _ i (by rw [htl]; exact hi), get?_take_lt df _ i hi]

/-- A concrete 21-row series (timestamps 0..20). -/
def dfW8 : List Point := (List.range 21).map (fun n => ⟨(n : ℤ), (n : ℚ)⟩)

/-- C8 witness: the theorem applied to a 21-row series with the leak simulated
and all operator actions on; row 0 is before the final 20 rows. -/
theorem claim_C8_runtime_ops_frame_witness :
    (apply_runtime_ops dfW8 "Room 2" "CO" true ⟨true, true, true, false⟩).map Point.t
      = dfW8.map Point.t ∧
    (apply_runtime_ops dfW8 "Room 2" "CO" true ⟨true, true, true, false⟩).get? 0
      = dfW8.get? 0 := by
  have h := claim_C8_runtime_ops_frame dfW8 "Room 2" "CO" true ⟨true, true, true, false⟩
    (by decide)
  exact ⟨h.1, h.2 0 (by decide)⟩

/-! ## Rolling z-score anomalies (utils/history.py, anomalies) -/

/-- The rolling(12) window ending at index i: the last 12 values up to and
including position i. -/
def rolling_window (vals : List ℚ) (i : ℕ) : List ℚ :=
  (vals.take (i + 1)).drop (i + 1 - 12)

/-- The boolean mask entry at index i computed by anomalies: rolling mean and
std over 12 samples (min_periods = 12, ddof = 1), std 0 replaced by NaN, and
the test |z| ≥ 3. A window with fewer than 12 samples yields NaN statistics
and the NaN comparisons of pandas are false, as is the comparison against a
NaN std; |(v - mu)/sd| ≥ 3 with sd = sqrt(var) > 0 is encoded exactly by its
square (v - mu)^2 ≥ 9 * var. -/
def rolling_flag (vals : List ℚ) (i : ℕ) : Bool :=
  if i + 1 < 12 then false
  else
    let w := rolling_window vals i
    let mu := w.sum / 12
    let variance := (w.map (fun x => (x - mu) ^ 2)).sum / 11
    if variance = 0 then false
    else decide ((vals.getD i 0 - mu) ^ 2 ≥ 9 * variance)

/-- The masked rows of anomalies together with their positions
(df[mask] keeps exactly the rows at the mask's true positions, in order). -/
def anomalies_idx (df : List Point) : List (ℕ × Point) :=
  df.enum.filter (fun q => rolling_flag (df.map Point.value) q.1)

/-- anomalies (utils/history.py lines 82-92): the rows of df whose rolling
z-score (12-sample window) has absolute value at least 3. -/
def anomalies (df : List Point) : List Point :=
  if df.isEmpty then [] else (anomalies_idx df).map (fun q => q.2)

/-- C10: anomalies returns a sublist of df (so every returned row is a row of
df, in stored order), and no masked position is below 11: a rolling window of
12 complete samples is required before any point can receive a z-score. -/
theorem claim_C10_anomalies_window :
    ∀ df : List Point,
    (anomalies df).Sublist df ∧
    (anomalies_idx df).Forall (fun q => 11 ≤ q.1) := by
  intro df
  constructor
  · unfold anomalies
    split_ifs with hE
    · exact List.nil_sublist df
    · have h1 : (anomalies_idx df).Sublist df.enum := List.filter_sublist _
      have h2 := List.Sublist.map (fun q : ℕ × Point => q.2) h1
      rw [show (df.enum.map fun q : ℕ × Point => q.2) = df from List.enum_map_snd df] at h2
      exact h2
  · rw [List.forall_iff_forall_mem]
    intro q hq
    have hflag := List.of_mem_filter hq
    by_contra hlt
    push_neg at hlt
    have : q.1 + 1 < 12 := by omega
    unfold rolling_flag at hflag
    rw [if_pos this] at hflag
    exact Bool.false_ne_true hflag

/-! ## Rule-based / hosted AI responder (utils/ai.py) -/

/-- "\n\n".join(advice): Python str.join over a list of strings. -/
def joinSep (sep : String) : List String → String
  | [] => ""
  | [x] => x
  | x :: y :: ys => x ++ (sep ++ joinSep sep (y :: ys))

/-- The context dict passed to ask_ai, with the keys _rule_based reads; none
models an absent key (so .getD mirrors dict .get with its default), and the
thresholds field is none when the dict holds no or an empty thresholds
entry. -/
structure Ctx where
  room : Option String
  gas : Option String
  value : Option ℚ
  status : Option String
  thresholds : Option Thr
  simulate : Bool

/-- context.get("room", "Unknown room"). -/
def ctx_room (c : Ctx) : String := c.room.getD "Unknown room"

/-- context.get("gas", "Unknown gas"). -/
def ctx_gas (c : Ctx) : String := c.gas.getD "Unknown gas"

/-- context.get("status", "OK"). -/
def ctx_status (c : Ctx) : String := c.status.getD "OK"

/-- First advice line of _rule_based (utils/ai.py line 26). -/
def rb_head (c : Ctx) : String :=
  "Room: **" ++ ctx_room c ++ "** • Gas: **" ++ ctx_gas c ++ "** • Status: **"
    ++ ctx_status c ++ "**"

/-- Reading/threshold advice lines (utils/ai.py lines 27-32), present when the
context has a value and a non-empty thresholds entry. -/
def rb_thr_lines (c : Ctx) : List String :=
  match c.value, c.thresholds with
  | some v, some thr =>
    ["Latest reading: **" ++ fmt2 v ++ thr.units ++ "**",
     if thr.mode = "low" then
       "Low‑warn: " ++ pyFloat thr.warn ++ thr.units ++ " • Low‑alarm: "
         ++ pyFloat thr.alarm ++ thr.units
     else
       "Warn: " ++ pyFloat thr.warn ++ thr.units ++ " • Alarm: "
         ++ pyFloat thr.alarm ++ thr.units]
  | _, _ => []

/-- Status-keyed action lines (utils/ai.py lines 34-43). -/
def rb_status_lines (c : Ctx) : List String :=
  if ctx_status c = "ALARM" then
    ["**Actions now:** Close shutters, isolate source, stop work, evacuate to muster, and call ERT."]
      ++ (if ctx_gas c = "H₂S" ∨ ctx_gas c = "CO" then
            ["Use gas monitors; SCBA required for re‑entry if concentrations are unknown."]
          else [])
      ++ (if ctx_gas c = "O₂" then
            ["Low O₂: treat as IDLH; ventilate and prevent confined‑space entry."]
          else [])
  else if ctx_status c = "WARN" then
    ["**Actions:** Increase extraction/ventilation, check for leaks/consumption, prepare shutdown if trend continues."]
  else
    ["No abnormal conditions. Keep ventilation and routine checks in place."]

/-- Simulation-mode line (utils/ai.py lines 45-46). -/
def rb_sim_lines (c : Ctx) : List String :=
  if c.simulate then ["_(Simulation mode active.)_"] else []

/-- Echo line for a non-blank prompt (utils/ai.py lines 48-49). -/
def rb_reply_lines (prompt : String) : List String :=
  if prompt.trim = "" then []
  else ["**Reply:** " ++ prompt.trim
    ++ " → Prioritize isolation, ventilation control, and continuous monitoring."]

/-- _rule_based (utils/ai.py lines 17-51): the canned markdown template, the
advice lines joined by blank lines. -/
def _rule_based (prompt : String) (c : Ctx) : String :=
  joinSep "\n\n"
    (rb_head c :: (rb_thr_lines c ++ rb_status_lines c ++ rb_sim_lines c
      ++ rb_reply_lines prompt))

/-- Environment of ask_ai: the OPENAI_API_KEY value and the imported OpenAI
client. The client is an oracle taking the prompt and the context (the code
stringifies both into one user message) and either returning the completion
content or raising; none models a failed SDK import (OpenAI is None). -/
structure AiEnv where
  apiKey : Option String
  openai : Option (String → Ctx → Except Unit String)

/-- Python truthiness of the api_key value (not api_key is True for both a
missing variable and an empty string). -/
def keyTruthy : Option String → Bool
  | none => false
  | some s => !s.isEmpty

/-- ask_ai (utils/ai.py lines 53-84): rule-based when force_rule is set, the
key is falsy or the SDK import failed; otherwise one hosted chat-completion
call whose stripped content is returned, with any exception silently falling
back to the same rule-based string. -/
def ask_ai (env : AiEnv) (prompt : String) (context : Ctx) (force_rule : Bool) :
    String :=
  match env.openai with
  | none => _rule_based prompt context
  | some client =>
    if force_rule || !keyTruthy env.apiKey then _rule_based prompt context
    else
      match client prompt context with
      | Except.ok s => s.trim
      | Except.error _ => _rule_based prompt context

/-- Whether ask_ai reaches the hosted chat-completion call: the negation of
the guard on utils/ai.py line 60. -/
def hostedAttempted (env : AiEnv) (force_rule : Bool) : Bool :=
  env.openai.isSome && !force_rule && keyTruthy env.apiKey

theorem string_append_assoc (a b c : String) : a ++ b ++ c = a ++ (b ++ c) := by
  apply String.ext
  simp [String.data_append]

theorem string_length_append (a b : String) : (a ++ b).length = a.length + b.length := by
  have h : (a ++ b).data.length = a.data.length + b.data.length := by
    rw [String.data_append, List.length_append]
  exact h

/-- joinSep of a non-empty list extends its first element on the right. -/
theorem joinSep_cons_extends (sep x : String) (xs : List String) :
    ∃ t, joinSep sep (x :: xs) = x ++ t := by
  cases xs with
  | nil =>
    refine ⟨"", ?_⟩
    apply String.ext
    simp [joinSep, String.data_append]
  | cons y ys => exact ⟨sep ++ joinSep sep (y :: ys), rfl⟩

theorem rb_head_ne_empty_extension (t : String) : ("Room: **" ++ t) ≠ "" := by
  intro h
  have hlen := congrArg String.length h
  rw [string_length_append] at hlen
  have h8 : ("Room: **").length = 8 := rfl
  have h0 : ("" : String).length = 0 := rfl
  omega

/-- C3: with force_rule set, ask_ai never reaches the hosted chat-completion
call and returns the rule-based template, which is a non-empty string
containing the room value and the gas value of the context. -/
theorem claim_C3_force_rule_behaviour :
    ∀ (env : AiEnv) (prompt : String) (c : Ctx) (r g : String),
    c.room = some r → c.gas = some g →
    hostedAttempted env true = false ∧
    ask_ai env prompt c true = _rule_based prompt c ∧
    ask_ai env prompt c true ≠ "" ∧
    (∃ a b, ask_ai env prompt c true = a ++ (r ++ b)) ∧
    (∃ a b, ask_ai env prompt c true = a ++ (g ++ b)) := by
  intro env prompt c r g hr hg
  have hrule : ask_ai env prompt c true = _rule_based prompt c := by
    unfold ask_ai
    cases env.openai <;> simp
  obtain ⟨t, ht⟩ : ∃ t, _rule_based prompt c = rb_head c ++ t := by
    unfold _rule_based
    exact joinSep_cons_extends _ _ _
  have hroom : ctx_room c = r := by
    unfold ctx_room
    rw [hr]
    rfl
  have hgas : ctx_gas c = g := by
    unfold ctx_gas
    rw [hg]
    rfl
  have hexp : rb_head c
      = "Room: **" ++ (r ++ ("** • Gas: **" ++ (g ++ ("** • Status: **"
          ++ (ctx_status c ++ "**"))))) := by
    unfold rb_head
    rw [hroom, hgas]
    simp [string_append_assoc]
  refine ⟨by simp [hostedAttempted], hrule, ?_, ?_, ?_⟩
  · rw [hrule, ht, hexp, string_append_assoc]
    exact rb_head_ne_empty_extension _
  · refine ⟨"Room: **",
      ("** • Gas: **" ++ (g ++ ("** • Status: **" ++ (ctx_status c ++ "**")))) ++ t, ?_⟩
    rw [hrule, ht, hexp]
    simp [string_append_assoc]
  · refine ⟨"Room: **" ++ (r ++ "** • Gas: **"),
      ("** • Status: **" ++ (ctx_status c ++ "**")) ++ t, ?_⟩
    rw [hrule, ht, hexp]
    simp [string_append_assoc]

/-- A concrete context: Room 2, CO at 42 with WARN status. -/
def ctxW : Ctx :=
  ⟨some "Room 2", some "CO", some 42, some "WARN",
    some ⟨"high", 35.0, 50.0, "ppm"⟩, false⟩

/-- An environment with a key and a working client, to show force_rule alone
suppresses the hosted path. -/
def envW : AiEnv := ⟨some "sk-demo", some (fun _ _ => Except.ok "hosted answer")⟩

/-- C3 witness: the theorem at a concrete environment, prompt and context,
with both context-field hypotheses discharged definitionally. -/
theorem claim_C3_force_rule_behaviour_witness :
    hostedAttempted envW true = false ∧
    ask_ai envW "Ventilation status?" ctxW true = _rule_based "Ventilation status?" ctxW ∧
    ask_ai envW "Ventilation status?" ctxW true ≠ "" ∧
    (∃ a b, ask_ai envW "Ventilation status?" ctxW true = a ++ ("Room 2" ++ b)) ∧
    (∃ a b, ask_ai envW "Ventilation status?" ctxW true = a ++ ("CO" ++ b)) :=
  claim_C3_force_rule_behaviour envW "Ventilation status?" ctxW "Room 2" "CO" rfl rfl

/-- C5: whenever the hosted call raises (and likewise when the key is falsy or
the SDK import failed), ask_ai with force_rule = False returns exactly the
rule-based template string for that prompt and context — the fallback is the
value of a total function, so no error reaches the caller. -/
theorem claim_C5_hosted_fallback :
    ∀ (prompt : String) (c : Ctx) (key : Option String)
      (client : String → Ctx → Except Unit String),
    (ask_ai ⟨key, none⟩ prompt c false = _rule_based prompt c) ∧
    (keyTruthy key = false →
      ask_ai ⟨key, some client⟩ prompt c false = _rule_based prompt c) ∧
    (client prompt c = Except.error () →
      ask_ai ⟨key, some client⟩ prompt c false = _rule_based prompt c) := by
  intro prompt c key client
  refine ⟨rfl, ?_, ?_⟩
  · intro hk
    unfold ask_ai
    simp [hk]
  · intro herr
    unfold ask_ai
    cases hkt : keyTruthy key with
    | false => simp [hkt]
    | true => simp [hkt, herr]

/-- C5 witness: the theorem at concrete inputs — an absent SDK, a raising
client with a falsy key, and a raising client with a truthy key — with both
implication hypotheses discharged definitionally. -/
theorem claim_C5_hosted_fallback_witness :
    ask_ai ⟨some "sk-demo", none⟩ "Leak response?" ctxW false
      = _rule_based "Leak response?" ctxW ∧
    ask_ai ⟨none, some (fun _ _ => Except.error ())⟩ "Leak response?" ctxW false
      = _rule_based "Leak response?" ctxW ∧
    ask_ai ⟨some "sk-demo", some (fun _ _ => Except.error ())⟩ "Leak response?" ctxW false
      = _rule_based "Leak response?" ctxW := by
  have h1 := claim_C5_hosted_fallback "Leak response?" ctxW (some "sk-demo")
    (fun _ _ => Except.error ())
  have h2 := claim_C5_hosted_fallback "Leak response?" ctxW none
    (fun _ _ => Except.error ())
  exact ⟨h1.1, h2.2.1 rfl, h1.2.2 rfl⟩

/-! ## Overview rendering (utils/facility.py and utils/facility_module.py) -/

/-- Candidate filenames for the overview image (identical lists OVERVIEW_CANDS
in utils/facility.py and OVERVIEW_CANDIDATES in utils/facility_module.py). -/
def OVERVIEW_CANDS : List String := ["Overview.png", "Overview (1).png", "overview.png"]

/-- ROOM_FILES (utils/facility.py lines 37-44): candidate image filenames per
room. -/
def ROOM_FILES : List (String × List String) :=
  [("Room 1", ["Room 1.png"]),
   ("Room 2", ["Room 2 (1).png", "Room 2.png"]),
   ("Room 3", ["Room 3 (1).png", "Room 3.png"]),
   ("Room Production", ["Room Production.png"]),
   ("Room Production 2", ["Room Production 2.png"]),
   ("Room 12 17", ["Room 12 17.png"])]

/-- ROOM_FILES.get(room, []): candidate filenames of a room in utils/facility.py. -/
def room_files_get (room : String) : List String :=
  ((ROOM_FILES.find? (fun p => p.1 == room)).map (fun p => p.2)).getD []

/-- Keys of the HOTSPOTS dict of utils/facility.py (lines 54-61), in insertion
order: render_overview iterates over exactly these. -/
def HOTSPOTS_rooms : List String :=
  ["Room 1", "Room 2", "Room 3", "Room 12 17", "Room Production", "Room Production 2"]

/-- _find_first (utils/facility.py lines 46-51) and _first
(utils/facility_module.py lines 21-26): the first candidate that exists in
the images directory, which is modeled as an existence predicate on
filenames. -/
def _find_first (fs : String → Bool) (names : List String) : Option String :=
  names.find? fs

/-- render_overview (utils/facility.py lines 132-176), reduced to the data the
page shows: none when no overview image candidate exists (st.error, render
aborted), otherwise the overview image used plus the rooms given a hotspot —
every key of HOTSPOTS, with no check of the room image files. -/
def render_overview (fs : String → Bool) : Option (String × List String) :=
  match _find_first fs OVERVIEW_CANDS with
  | none => none
  | some ov => some (ov, HOTSPOTS_rooms)

/-- ROOM_FILE_CANDIDATES (utils/facility_module.py lines 33-40); this variant
has extra fallback filenames for two rooms. -/
def ROOM_FILE_CANDIDATES : List (String × List String) :=
  [("Room 1", ["Room 1.png"]),
   ("Room 2", ["Room 2 (1).png", "Room 2.png"]),
   ("Room 3", ["Room 3 (1).png", "Room 3.png"]),
   ("Room 12 17", ["Room 12 17.png", "Room 12.png"]),
   ("Room Production", ["Room Production.png"]),
   ("Room Production 2", ["Room Production 2.png", "Room Production2.png"])]

/-- ROOM_FILE_CANDIDATES.get(rn, []) of utils/facility_module.py. -/
def module_room_files (room : String) : List String :=
  ((ROOM_FILE_CANDIDATES.find? (fun p => p.1 == room)).map (fun p => p.2)).getD []

/-- Keys of the HOTSPOTS dict of utils/facility_module.py (lines 45-52), in
insertion order. -/
def module_HOTSPOTS_rooms : List String :=
  ["Room 1", "Room 2", "Room 3", "Room 12 17", "Room Production", "Room Production 2"]

/-- render_overview of utils/facility_module.py (lines 132-183): unlike the
facility.py variant the app imports, this one keeps only the rooms whose own
image file exists. -/
def module_render_overview (fs : String → Bool) : Option (String × List String) :=
  match _find_first fs OVERVIEW_CANDS with
  | none => none
  | some ov =>
    some (ov, module_HOTSPOTS_rooms.filter
      (fun rn => (_find_first fs (module_room_files rn)).isSome))

/-- Images directory holding only the overview image. -/
def fs_only_overview : String → Bool := fun name => name == "Overview.png"

/-- C7 counterexample: with only the overview image present, the
render_overview the app uses still emits a hotspot for Room 1 (and all six
rooms) although no Room 1 image file exists — refuting the claim that a room
without an existing image file gets no hotspot. -/
theorem claim_C7_overview_hotspots_counterexample :
    render_overview fs_only_overview = some ("Overview.png", HOTSPOTS_rooms) ∧
    "Room 1" ∈ HOTSPOTS_rooms ∧
    _find_first fs_only_overview (room_files_get "Room 1") = none := by
  refine ⟨rfl, ?_, rfl⟩
  simp [HOTSPOTS_rooms]

/-- C7 amended: whenever an overview image candidate exists, the overview page
renders that image together with six navigable hotspots, one per configured
room, regardless of whether the rooms' own image files exist; the
image-existence filtering described by the claim is performed only by the
facility_module.py variant, which the app does not import. -/
theorem claim_C7_overview_hotspots_amended :
    ∀ (fs : String → Bool) (ov : String),
    _find_first fs OVERVIEW_CANDS = some ov →
    (render_overview fs = some (ov, HOTSPOTS_rooms) ∧
     HOTSPOTS_rooms.length = 6 ∧
     (∀ fs2 ov2, _find_first fs2 OVERVIEW_CANDS = some ov2 →
        ∃ l, module_render_overview fs2 = some (ov2, l) ∧
          ∀ room, room ∈ l ↔
            room ∈ module_HOTSPOTS_rooms ∧
              (_find_first fs2 (module_room_files room)).isSome = true)) := by
  intro fs ov hov
  refine ⟨?_, rfl, ?_⟩
  · unfold render_overview
    rw [hov]
  · intro fs2 ov2 hov2
    refine ⟨module_HOTSPOTS_rooms.filter
      (fun rn => (_find_first fs2 (module_room_files rn)).isSome), ?_, ?_⟩
    · unfold module_render_overview
      rw [hov2]
    · intro room
      simp [List.mem_filter]

/-- Images directory in which every file exists. -/
def fs_all : String → Bool := fun _ => true

/-- C7 amended witness: the theorem at the full images directory, with both
overview-lookup hypotheses discharged definitionally; the six hotspots appear
and the module variant keeps Room 1, whose image exists here. -/
theorem claim_C7_overview_hotspots_amended_witness :
    render_overview fs_all = some ("Overview.png", HOTSPOTS_rooms) ∧
    HOTSPOTS_rooms.length = 6 ∧
    ∃ l, module_render_overview fs_all = some ("Overview.png", l) ∧
      ("Room 1" ∈ l ↔ "Room 1" ∈ module_HOTSPOTS_rooms ∧
        (_find_first fs_all (module_room_files "Room 1")).isSome = true) := by
  have h := claim_C7_overview_hotspots_amended fs_all "Overview.png" rfl
  obtain ⟨l, hl, hmem⟩ := h.2.2 fs_all "Overview.png" rfl
  exact ⟨h.1, h.2.1, l, hl, hmem "Room 1"⟩

end FacilityApp
